import Mathlib

/-!
Shallow embedding of the Graphite frontend menu-bar component
(MenuBarInput, the Vue single-file component whose script defines
makeEntries, onClick and blur) and of the workspace Panel component
(Panel.vue). The definitions below are transcribed from the source;
the theorems settle the frozen claims about them.
-/

set_option maxRecDepth 4096

/-- Model of the MenuList component instance stored in the ref field of a
menu entry. Of its state only the isOpen flag is read or written by the
menu-bar handlers, so only that flag is modelled. -/
structure MenuListRef where
  isOpen : Bool
deriving Repr, DecidableEq

/-- Argument expression passed to reorder_selected_layers: either a numeric
literal, or the value of the editor getter i32_max() or i32_min(). -/
inductive I32Arg : Type where
  | lit (n : Int)
  | i32Max
  | i32Min
deriving Repr, DecidableEq

/-- Methods of the external editor instance that appear as menu actions in
the makeEntries table. -/
inductive EditorMethod : Type where
  | requestNewDocumentDialog
  | openDocument
  | closeActiveDocumentWithConfirmation
  | closeAllDocumentsWithConfirmation
  | saveDocument
  | exportDocument
  | undo
  | redo
  | cut
  | copy
  | selectAllLayers
  | deselectAllLayers
  | reorderSelectedLayers (delta : I32Arg)
  | toggleNodeGraphVisibility
  | requestAboutGraphiteDialog
  | logLevelInfo
  | logLevelDebug
  | logLevelTrace
  | intentionalPanic
deriving Repr, DecidableEq

/-- External name of an editor method, as it is spelled at the call site
editor.instance.NAME in the source. -/
def EditorMethod.methodName : EditorMethod → String
  | .requestNewDocumentDialog => "request_new_document_dialog"
  | .openDocument => "open_document"
  | .closeActiveDocumentWithConfirmation => "close_active_document_with_confirmation"
  | .closeAllDocumentsWithConfirmation => "close_all_documents_with_confirmation"
  | .saveDocument => "save_document"
  | .exportDocument => "export_document"
  | .undo => "undo"
  | .redo => "redo"
  | .cut => "cut"
  | .copy => "copy"
  | .selectAllLayers => "select_all_layers"
  | .deselectAllLayers => "deselect_all_layers"
  | .reorderSelectedLayers _ => "reorder_selected_layers"
  | .toggleNodeGraphVisibility => "toggle_node_graph_visibility"
  | .requestAboutGraphiteDialog => "request_about_graphite_dialog"
  | .logLevelInfo => "log_level_info"
  | .logLevelDebug => "log_level_debug"
  | .logLevelTrace => "log_level_trace"
  | .intentionalPanic => "intentional_panic"

/-- Action callback of a menu entry: a call on the editor instance, a call
to window.open with a URL, or the no-op arrow function that returns
undefined. -/
inductive MenuAction : Type where
  | editorCall (m : EditorMethod)
  | windowOpen (url : String)
  | noop
deriving Repr, DecidableEq

/-- A menu entry of the MenuList table: label, optional icon, optional
shortcut key list, optional shortcutRequiresLock flag, optional checkbox
and checked flags, optional action callback, optional nested children
(a list of groups, each group a list of entries), and the mutable ref to
the mounted MenuList component. -/
inductive MenuListEntry : Type where
  | mk
      (label : String)
      (icon : Option String)
      (shortcut : Option (List String))
      (shortcutRequiresLock : Option Bool)
      (checkbox : Option Bool)
      (checked : Option Bool)
      (action : Option MenuAction)
      (children : Option (List (List MenuListEntry)))
      (ref : Option MenuListRef)

def MenuListEntry.label : MenuListEntry → String
  | .mk l _ _ _ _ _ _ _ _ => l

def MenuListEntry.icon : MenuListEntry → Option String
  | .mk _ i _ _ _ _ _ _ _ => i

def MenuListEntry.shortcut : MenuListEntry → Option (List String)
  | .mk _ _ s _ _ _ _ _ _ => s

def MenuListEntry.shortcutRequiresLock : MenuListEntry → Option Bool
  | .mk _ _ _ srl _ _ _ _ _ => srl

def MenuListEntry.checkbox : MenuListEntry → Option Bool
  | .mk _ _ _ _ cb _ _ _ _ => cb

def MenuListEntry.checked : MenuListEntry → Option Bool
  | .mk _ _ _ _ _ ck _ _ _ => ck

def MenuListEntry.action : MenuListEntry → Option MenuAction
  | .mk _ _ _ _ _ _ a _ _ => a

def MenuListEntry.children : MenuListEntry → Option (List (List MenuListEntry))
  | .mk _ _ _ _ _ _ _ ch _ => ch

def MenuListEntry.ref : MenuListEntry → Option MenuListRef
  | .mk _ _ _ _ _ _ _ _ r => r

/-- Open flag of an entry as the template reads it: entry.ref?.isOpen,
false when the ref is undefined. -/
def MenuListEntry.isOpenFlag : MenuListEntry → Bool
  | .mk _ _ _ _ _ _ _ _ r =>
    match r with
    | some fr => fr.isOpen
    | none => false

/-- Write of entry.ref.isOpen := b; the ref field itself is kept, and an
undefined ref stays undefined. -/
def setIsOpen : MenuListEntry → Bool → MenuListEntry
  | .mk l i s srl cb ck a ch r, b =>
    .mk l i s srl cb ck a ch (r.map (fun _ => { isOpen := b }))

/-- Replacement of the ref field, modelling the template ref callback that
assigns the mounted MenuList component to entry.ref. -/
def setRef : MenuListEntry → Option MenuListRef → MenuListEntry
  | .mk l i s srl cb ck a ch _, r => .mk l i s srl cb ck a ch r

/-- Entry with the mutable ref field erased, i.e. the static part of the
entry: label, icon, shortcut, lock flag, checkbox state, action and
children. -/
def eraseRef (e : MenuListEntry) : MenuListEntry :=
  setRef e none

/-- The static menu table returned by makeEntries. Action closures over the
editor instance are represented as MenuAction data; entries written in the
source without some optional field carry none there. -/
def makeEntries : List MenuListEntry :=
  [ .mk "File" none none none none none none
      (some
        [ [ .mk "New…" (some "File") (some ["KeyControl", "KeyN"]) (some true) none none
              (some (.editorCall .requestNewDocumentDialog)) none none,
            .mk "Open…" none (some ["KeyControl", "KeyO"]) none none none
              (some (.editorCall .openDocument)) none none,
            .mk "Open Recent" none (some ["KeyControl", "KeyShift", "KeyO"]) none none none
              (some .noop)
              (some
                [ [ .mk "Reopen Last Closed" none (some ["KeyControl", "KeyShift", "KeyT"]) (some true)
                      none none none none none,
                    .mk "Clear Recently Opened" none none none none none none none none ],
                  [ .mk "Some Recent File.gdd" none none none none none none none none,
                    .mk "Another Recent File.gdd" none none none none none none none none,
                    .mk "An Older File.gdd" none none none none none none none none,
                    .mk "Some Other Older File.gdd" none none none none none none none none,
                    .mk "Yet Another Older File.gdd" none none none none none none none none ] ])
              none ],
          [ .mk "Close" none (some ["KeyControl", "KeyW"]) (some true) none none
              (some (.editorCall .closeActiveDocumentWithConfirmation)) none none,
            .mk "Close All" none (some ["KeyControl", "KeyAlt", "KeyW"]) none none none
              (some (.editorCall .closeAllDocumentsWithConfirmation)) none none ],
          [ .mk "Save" none (some ["KeyControl", "KeyS"]) none none none
              (some (.editorCall .saveDocument)) none none,
            .mk "Save As…" none (some ["KeyControl", "KeyShift", "KeyS"]) none none none
              (some (.editorCall .saveDocument)) none none,
            .mk "Save All" none (some ["KeyControl", "KeyAlt", "KeyS"]) none none none none none none,
            .mk "Auto-Save" none none none (some true) (some true) none none none ],
          [ .mk "Import…" none (some ["KeyControl", "KeyI"]) none none none none none none,
            .mk "Export…" none (some ["KeyControl", "KeyE"]) none none none
              (some (.editorCall .exportDocument)) none none ],
          [ .mk "Quit" none (some ["KeyControl", "KeyQ"]) none none none none none none ] ])
      none,
    .mk "Edit" none none none none none none
      (some
        [ [ .mk "Undo" none (some ["KeyControl", "KeyZ"]) none none none
              (some (.editorCall .undo)) none none,
            .mk "Redo" none (some ["KeyControl", "KeyShift", "KeyZ"]) none none none
              (some (.editorCall .redo)) none none ],
          [ .mk "Cut" none (some ["KeyControl", "KeyX"]) none none none
              (some (.editorCall .cut)) none none,
            .mk "Copy" (some "Copy") (some ["KeyControl", "KeyC"]) none none none
              (some (.editorCall .copy)) none none ] ])
      none,
    .mk "Layer" none none none none none none
      (some
        [ [ .mk "Select All" none (some ["KeyControl", "KeyA"]) none none none
              (some (.editorCall .selectAllLayers)) none none,
            .mk "Deselect All" none (some ["KeyControl", "KeyAlt", "KeyA"]) none none none
              (some (.editorCall .deselectAllLayers)) none none,
            .mk "Order" none none none none none (some .noop)
              (some
                [ [ .mk "Raise To Front" none (some ["KeyControl", "KeyShift", "KeyLeftBracket"]) none
                      none none (some (.editorCall (.reorderSelectedLayers .i32Max))) none none,
                    .mk "Raise" none (some ["KeyControl", "KeyRightBracket"]) none none none
                      (some (.editorCall (.reorderSelectedLayers (.lit 1)))) none none,
                    .mk "Lower" none (some ["KeyControl", "KeyLeftBracket"]) none none none
                      (some (.editorCall (.reorderSelectedLayers (.lit (-1))))) none none,
                    .mk "Lower to Back" none (some ["KeyControl", "KeyShift", "KeyRightBracket"]) none
                      none none (some (.editorCall (.reorderSelectedLayers .i32Min))) none none ] ])
              none ] ])
      none,
    .mk "Document" none none none none none none
      (some [ [ .mk "Menu entries coming soon" none none none none none none none none ] ])
      none,
    .mk "View" none none none none none none
      (some
        [ [ .mk "Show/Hide Node Graph (In Development)" none none none none none
              (some (.editorCall .toggleNodeGraphVisibility)) none none ] ])
      none,
    .mk "Help" none none none none none none
      (some
        [ [ .mk "About Graphite" none none none none none
              (some (.editorCall .requestAboutGraphiteDialog)) none none ],
          [ .mk "Report a Bug" none none none none none
              (some (.windowOpen "https://github.com/GraphiteEditor/Graphite/issues/new")) none none,
            .mk "Visit on GitHub" none none none none none
              (some (.windowOpen "https://github.com/GraphiteEditor/Graphite")) none none ],
          [ .mk "Debug: Set Log Level" none none none none none (some .noop)
              (some
                [ [ .mk "Log Level Info" none (some ["Key1"]) none none none
                      (some (.editorCall .logLevelInfo)) none none,
                    .mk "Log Level Debug" none (some ["Key2"]) none none none
                      (some (.editorCall .logLevelDebug)) none none,
                    .mk "Log Level Trace" none (some ["Key3"]) none none none
                      (some (.editorCall .logLevelTrace)) none none ] ])
              none,
            .mk "Debug: Panic (DANGER)" none none none none none
              (some (.editorCall .intentionalPanic)) none none ] ])
      none ]

/-- State of the menu-bar component: its list of top-level entries. The
handlers below mutate only entries of this list. -/
abbrev MenuBarState := List MenuListEntry

/-- The onClick handler: target.focus() touches no entry; then, when the
clicked entry has a ref, entry.ref.isOpen is set to true, and otherwise an
error is thrown. The out-of-range index case cannot arise from the
template, whose v-for only yields entries of the list; it is mapped to the
unchanged state. -/
def onClick (es : MenuBarState) (i : Nat) : Except String MenuBarState :=
  match es[i]? with
  | none => Except.ok es
  | some e =>
    if e.ref.isSome then Except.ok (es.set i (setIsOpen e true))
    else Except.error "The menu bar floating menu has no associated ref"

/-- The blur handler: when the closest ancestor of the event target matching
the menu-bar selector differs from the component root element, and the
blurred entry has a ref, entry.ref.isOpen is set to false; otherwise
nothing changes. The DOM condition is abstracted to the boolean
targetOutsideMenuBar. -/
def blur (es : MenuBarState) (i : Nat) (targetOutsideMenuBar : Bool) : MenuBarState :=
  match es[i]? with
  | none => es
  | some e =>
    if targetOutsideMenuBar && e.ref.isSome then es.set i (setIsOpen e false)
    else es

/-- One UI event handled by the menu bar: a click on entry i, or a blur
event delivered to entry i whose target is outside or inside the menu
bar. -/
inductive MenuEvent : Type where
  | click (i : Nat)
  | blurEvent (i : Nat) (targetOutsideMenuBar : Bool)
deriving Repr, DecidableEq

/-- Index of the entry an event is delivered to. -/
def MenuEvent.targetIdx : MenuEvent → Nat
  | .click i => i
  | .blurEvent i _ => i

/-- One handler invocation on the component state. A thrown onClick error
leaves the state unchanged, as in the source, where the throw happens
before any write to an open flag. -/
def step (es : MenuBarState) : MenuEvent → MenuBarState
  | .click i =>
    match onClick es i with
    | Except.ok es2 => es2
    | Except.error _ => es
  | .blurEvent i outside => blur es i outside

/-- A sequence of handler invocations. -/
def run (es : MenuBarState) (evs : List MenuEvent) : MenuBarState :=
  evs.foldl step es

/-- Initial mounted state: the table built once by makeEntries, with the
template ref callback having assigned a MenuList instance to every
top-level entry, all menus closed. -/
def initState : MenuBarState :=
  makeEntries.map (fun e => setRef e (some { isOpen := false }))

/-- Open flag of the entry at index i of the state, false when absent. -/
def openAt (es : MenuBarState) (i : Nat) : Bool :=
  match es[i]? with
  | some e => e.isOpenFlag
  | none => false

/-- Number of top-level entries whose open flag is true. -/
def countOpen (es : MenuBarState) : Nat :=
  es.countP (fun e => e.isOpenFlag)

/-- Whether the entry at index i exists and has a defined ref. -/
def refDefinedAt (es : MenuBarState) (i : Nat) : Bool :=
  match es[i]? with
  | some e => e.ref.isSome
  | none => false

mutual

/-- Action callbacks reachable from one entry: its own action followed by
those of all entries of its nested children groups. -/
def entryActions : MenuListEntry → List MenuAction
  | .mk _ _ _ _ _ _ a ch _ => a.toList ++ childActions ch

/-- Action callbacks of an optional children field. -/
def childActions : Option (List (List MenuListEntry)) → List MenuAction
  | none => []
  | some gs => groupsActions gs

/-- Action callbacks of a list of groups. -/
def groupsActions : List (List MenuListEntry) → List MenuAction
  | [] => []
  | g :: gs => groupActions g ++ groupsActions gs

/-- Action callbacks of one group of entries. -/
def groupActions : List MenuListEntry → List MenuAction
  | [] => []
  | e :: es => entryActions e ++ groupActions es

end

/-- Editor methods called by one action callback. -/
def MenuAction.editorMethods : MenuAction → List EditorMethod
  | .editorCall m => [m]
  | .windowOpen _ => []
  | .noop => []

/-- Names of all editor methods that occur as entry actions anywhere in the
static makeEntries table. -/
def tableMethodNames : List String :=
  ((groupActions makeEntries).flatMap MenuAction.editorMethods).map EditorMethod.methodName

/-- The external-interface list of the specification. -/
def claimedMethodNames : List String :=
  [ "request_new_document_dialog",
    "open_document",
    "close_active_document_with_confirmation",
    "close_all_documents_with_confirmation",
    "save_document",
    "export_document",
    "undo",
    "redo",
    "cut",
    "copy",
    "select_all_layers",
    "deselect_all_layers",
    "reorder_selected_layers",
    "toggle_node_graph_visibility",
    "request_about_graphite_dialog",
    "log_level_info",
    "log_level_debug",
    "log_level_trace",
    "intentional_panic" ]

/-- The submenu group of the Order entry inside the Layer top-level entry,
located by its position in the table. -/
def orderSubmenu : List MenuListEntry :=
  match makeEntries[2]? with
  | none => []
  | some layerEntry =>
    match (layerEntry.children.getD [])[0]? with
    | none => []
    | some g =>
      match g[2]? with
      | none => []
      | some orderEntry =>
        match (orderEntry.children.getD [])[0]? with
        | none => []
        | some og => og

/-- The panel body component selected by the panelType prop. -/
inductive PanelType : Type where
  | document
  | properties
  | layerTree
  | nodeGraph
  | iconButton
  | popoverButton
deriving Repr, DecidableEq

/-- Props of the Panel component. The callback props are optional, as in
the source; the result type of a callback is abstract. The active index is
a plain number prop, so any integer can be supplied by the parent. -/
structure PanelProps (A : Type) where
  tabMinWidths : Bool
  tabCloseButtons : Bool
  tabLabels : List String
  tabActiveIndex : Int
  panelType : PanelType
  clickAction : Option (Nat → A)
  closeAction : Option (Nat → A)

/-- One rendered tab of the tab bar: its label, its v-for index, whether it
carries the active class (tabIndex === tabActiveIndex), and whether a close
button is rendered on it (v-if tabCloseButtons). -/
structure TabView where
  label : String
  index : Nat
  active : Bool
  hasCloseButton : Bool
deriving Repr, DecidableEq

/-- The rendered tab bar: one TabView per label, in order, with the v-for
index attached. -/
def renderTabs {A : Type} (p : PanelProps A) : List TabView :=
  (List.range p.tabLabels.length).map (fun i =>
    { label := p.tabLabels.getD i "",
      index := i,
      active := ((i : Int) == p.tabActiveIndex),
      hasCloseButton := p.tabCloseButtons })

/-- Click handler of tab i: stopPropagation, then clickAction?.(i); the
optional chaining makes the call a no-op when the prop is absent. The
result records the invoked callback value, none when nothing was
invoked. -/
def onTabClick {A : Type} (p : PanelProps A) (i : Nat) : Option A :=
  p.clickAction.map (fun f => f i)

/-- Middle-click handler of tab i: stopPropagation, then closeAction?.(i). -/
def onTabMiddleClick {A : Type} (p : PanelProps A) (i : Nat) : Option A :=
  p.closeAction.map (fun f => f i)

/-- Close-button action of tab i: the button exists only when
tabCloseButtons is set, and then runs stopPropagation followed by
closeAction?.(i). -/
def onTabCloseButton {A : Type} (p : PanelProps A) (i : Nat) : Option A :=
  if p.tabCloseButtons then p.closeAction.map (fun f => f i) else none

/-- Number of rendered tabs carrying the active class. -/
def activeTabCount {A : Type} (p : PanelProps A) : Nat :=
  (renderTabs p).countP (fun t => t.active)

theorem eraseRef_setIsOpen (e : MenuListEntry) (b : Bool) :
    eraseRef (setIsOpen e b) = eraseRef e := by
  cases e
  rfl

theorem isOpenFlag_setIsOpen_true (e : MenuListEntry) (h : e.ref.isSome = true) :
    (setIsOpen e true).isOpenFlag = true := by
  cases e with
  | mk l i s srl cb ck a ch r =>
    cases r with
    | none => simp [MenuListEntry.ref] at h
    | some fr => rfl

theorem isOpenFlag_setIsOpen_false (e : MenuListEntry) :
    (setIsOpen e false).isOpenFlag = false := by
  cases e with
  | mk l i s srl cb ck a ch r =>
    cases r with
    | none => rfl
    | some fr => rfl

theorem isOpenFlag_of_ref_none (e : MenuListEntry) (h : e.ref = none) :
    e.isOpenFlag = false := by
  cases e with
  | mk l i s srl cb ck a ch r =>
    simp only [MenuListEntry.ref] at h
    subst h
    rfl

theorem map_set_eq_map {α β : Type} (f : α → β) :
    ∀ (l : List α) (i : Nat) (a : α),
      (∀ b, l[i]? = some b → f a = f b) →
      (l.set i a).map f = l.map f
  | [], _, _, _ => rfl
  | x :: _, 0, a, h => by
      simp only [List.set, List.map_cons]
      rw [h x (by simp)]
  | x :: xs, n + 1, a, h => by
      simp only [List.set, List.map_cons]
      rw [map_set_eq_map f xs n a (fun b hb => h b (by simpa using hb))]

theorem step_map_eraseRef (es : MenuBarState) (ev : MenuEvent) :
    (step es ev).map eraseRef = es.map eraseRef := by
  cases ev with
  | click i =>
    simp only [step, onClick]
    cases hi : es[i]? with
    | none => rfl
    | some e =>
      by_cases hr : e.ref.isSome = true
      · simp only [hr, if_true]
        exact map_set_eq_map eraseRef es i _
          (fun b hb => by rw [hi] at hb; cases hb; exact eraseRef_setIsOpen e true)
      · simp only [Bool.not_eq_true] at hr
        simp [hr]
  | blurEvent i outside =>
    simp only [step, blur]
    cases hi : es[i]? with
    | none => rfl
    | some e =>
      by_cases hc : (outside && e.ref.isSome) = true
      · simp only [hc, if_true]
        exact map_set_eq_map eraseRef es i _
          (fun b hb => by rw [hi] at hb; cases hb; exact eraseRef_setIsOpen e false)
      · simp [hc]

theorem run_map_eraseRef (evs : List MenuEvent) :
    ∀ es : MenuBarState, (run es evs).map eraseRef = es.map eraseRef := by
  induction evs with
  | nil => intro es; rfl
  | cons ev evs ih =>
    intro es
    show (run (step es ev) evs).map eraseRef = _
    rw [ih (step es ev), step_map_eraseRef]

theorem label_eraseRef (e : MenuListEntry) : (eraseRef e).label = e.label := by
  cases e; rfl

theorem icon_eraseRef (e : MenuListEntry) : (eraseRef e).icon = e.icon := by
  cases e; rfl

theorem shortcut_eraseRef (e : MenuListEntry) : (eraseRef e).shortcut = e.shortcut := by
  cases e; rfl

theorem checkbox_eraseRef (e : MenuListEntry) : (eraseRef e).checkbox = e.checkbox := by
  cases e; rfl

theorem checked_eraseRef (e : MenuListEntry) : (eraseRef e).checked = e.checked := by
  cases e; rfl

theorem action_eraseRef (e : MenuListEntry) : (eraseRef e).action = e.action := by
  cases e; rfl

theorem children_eraseRef (e : MenuListEntry) : (eraseRef e).children = e.children := by
  cases e; rfl

theorem option_map_field_eq {γ : Type} {o1 o2 : Option MenuListEntry}
    (h : o1.map eraseRef = o2.map eraseRef)
    (f : MenuListEntry → γ) (hf : ∀ e, f (eraseRef e) = f e) :
    o1.map f = o2.map f := by
  cases o1 with
  | none => cases o2 with
    | none => rfl
    | some b => simp at h
  | some a => cases o2 with
    | none => simp at h
    | some b =>
      simp only [Option.map_some'] at h ⊢
      have hab : eraseRef a = eraseRef b := Option.some.inj h
      rw [← hf a, hab, hf b]

/-- Claim C8 (confirmed): along any sequence of onClick and blur handler
invocations from the mounted initial state, every entry keeps the label,
icon, shortcut, lock flag, checkbox state, action callback and children it
received from the static makeEntries table: the states agree entrywise
after erasing the mutable ref field, and in particular every individual
static field of every entry is unchanged. -/
theorem menu_entries_static_fields_unchanged (evs : List MenuEvent) (j : Nat) :
    ((run initState evs).map eraseRef = initState.map eraseRef) ∧
    (((run initState evs)[j]?).map MenuListEntry.label = (initState[j]?).map MenuListEntry.label) ∧
    (((run initState evs)[j]?).map MenuListEntry.icon = (initState[j]?).map MenuListEntry.icon) ∧
    (((run initState evs)[j]?).map MenuListEntry.shortcut
      = (initState[j]?).map MenuListEntry.shortcut) ∧
    (((run initState evs)[j]?).map MenuListEntry.checkbox
      = (initState[j]?).map MenuListEntry.checkbox) ∧
    (((run initState evs)[j]?).map MenuListEntry.checked
      = (initState[j]?).map MenuListEntry.checked) ∧
    (((run initState evs)[j]?).map MenuListEntry.action
      = (initState[j]?).map MenuListEntry.action) ∧
    (((run initState evs)[j]?).map MenuListEntry.children
      = (initState[j]?).map MenuListEntry.children) := by
  have hmap := run_map_eraseRef evs initState
  have hj : ((run initState evs)[j]?).map eraseRef = (initState[j]?).map eraseRef := by
    rw [← List.getElem?_map, hmap, List.getElem?_map]
  exact ⟨hmap,
    option_map_field_eq hj MenuListEntry.label label_eraseRef,
    option_map_field_eq hj MenuListEntry.icon icon_eraseRef,
    option_map_field_eq hj MenuListEntry.shortcut shortcut_eraseRef,
    option_map_field_eq hj MenuListEntry.checkbox checkbox_eraseRef,
    option_map_field_eq hj MenuListEntry.checked checked_eraseRef,
    option_map_field_eq hj MenuListEntry.action action_eraseRef,
    option_map_field_eq hj MenuListEntry.children children_eraseRef⟩

/-- Concrete two-entry state used by witnesses: both entries carry a
mounted ref and are open. -/
def exEntryA : MenuListEntry :=
  .mk "A" none none none none none none none (some { isOpen := true })

def exEntryB : MenuListEntry :=
  .mk "B" none none none none none none none (some { isOpen := true })

/-- Concrete entry whose ref field is undefined. -/
def exEntryNoRef : MenuListEntry :=
  .mk "C" none none none none none none none none

/-- Claim C1 (counterexample): in the state reached from the mounted
initial state by clicking the File entry and then the Edit entry, a blur
event on entry 0 whose target is outside the menu bar closes only entry 0;
entry 1 keeps its open flag true, so not every open entry is closed. -/
theorem C1_counterexample :
    openAt (blur (run initState [MenuEvent.click 0, MenuEvent.click 1]) 0 true) 1 = true ∧
    openAt (blur (run initState [MenuEvent.click 0, MenuEvent.click 1]) 0 true) 0 = false ∧
    countOpen (blur (run initState [MenuEvent.click 0, MenuEvent.click 1]) 0 true) = 1 :=
  ⟨by decide, by decide, by decide⟩

/-- Claim C1 (amended, proved): a blur event whose target is outside the
menu bar closes the blurred entry only: afterwards the blurred entry has
open flag false, and every other entry is completely unchanged. -/
theorem blur_outside_closes_only_blurred_entry (es : MenuBarState) (i : Nat) (outside : Bool) :
    (outside = true → openAt (blur es i outside) i = false) ∧
    (∀ j, j ≠ i → (blur es i outside)[j]? = es[j]?) := by
  constructor
  · intro ho
    subst ho
    unfold blur openAt
    cases hi : es[i]? with
    | none => rw [hi]
    | some e =>
      by_cases hr : e.ref.isSome = true
      · simp only [hr, Bool.true_and, if_true]
        have hlen : i < es.length := (List.getElem?_eq_some.mp hi).1
        rw [List.getElem?_set_eq_of_lt _ hlen]
        exact isOpenFlag_setIsOpen_false e
      · simp only [Bool.not_eq_true] at hr
        simp only [hr, Bool.and_false, Bool.false_eq_true, if_false]
        rw [hi]
        exact isOpenFlag_of_ref_none e (Option.not_isSome_iff_eq_none.mp (by simp [hr]))
  · intro j hj
    unfold blur
    cases hi : es[i]? with
    | none => rfl
    | some e =>
      by_cases hc : (outside && e.ref.isSome) = true
      · simp only [hc, if_true]
        exact List.getElem?_set_ne (fun h => hj h.symm)
      · simp [hc]

/-- Claim C1 witness: a concrete instance of the amended theorem, in a
state where both entries are open. -/
theorem blur_outside_closes_only_blurred_entry_witness :
    openAt (blur [exEntryA, exEntryB] 0 true) 0 = false ∧
    (blur [exEntryA, exEntryB] 0 true)[1]? = [exEntryA, exEntryB][1]? :=
  ⟨(blur_outside_closes_only_blurred_entry [exEntryA, exEntryB] 0 true).1 rfl,
   (blur_outside_closes_only_blurred_entry [exEntryA, exEntryB] 0 true).2 1 (by decide)⟩

/-- Claim C2 (confirmed): invoking the onClick handler on an entry whose
ref field is defined succeeds and sets that entry open flag to true. -/
theorem onClick_sets_entry_open (es : MenuBarState) (i : Nat)
    (h : refDefinedAt es i = true) :
    ∃ es2, onClick es i = Except.ok es2 ∧ openAt es2 i = true := by
  unfold refDefinedAt at h
  cases hi : es[i]? with
  | none => rw [hi] at h; exact absurd h (by simp)
  | some e =>
    rw [hi] at h
    have hsome : e.ref.isSome = true := h
    refine ⟨es.set i (setIsOpen e true), ?_, ?_⟩
    · unfold onClick
      rw [hi]
      simp [hsome]
    · unfold openAt
      have hlen : i < es.length := (List.getElem?_eq_some.mp hi).1
      rw [List.getElem?_set_eq_of_lt _ hlen]
      exact isOpenFlag_setIsOpen_true e hsome

/-- Claim C2 witness: clicking the File entry of the mounted initial state
opens it. -/
theorem onClick_sets_entry_open_witness :
    refDefinedAt initState 0 = true ∧
    ∃ es2, onClick initState 0 = Except.ok es2 ∧ openAt es2 0 = true :=
  ⟨by decide, onClick_sets_entry_open initState 0 (by decide)⟩

/-- Claim C3 (counterexample): the error actually thrown by onClick on an
entry without a ref reads "The menu bar floating menu has no associated
ref", which differs from the message stated by the claim. -/
theorem C3_counterexample :
    onClick [exEntryNoRef] 0 = Except.error "The menu bar floating menu has no associated ref" ∧
    "The menu bar floating menu has no associated ref"
      ≠ "menu bar floating menu has no associated ref" :=
  ⟨by rfl, by decide⟩

/-- Claim C3 (amended, proved): onClick throws exactly when the clicked
entry has no ref; the only message ever thrown is "The menu bar floating
menu has no associated ref"; and on a throw the component state, and in
particular every open flag, is unchanged. The blur handler and the panel
handlers are total functions of the state in this development and throw
nothing. -/
theorem onClick_error_iff_no_ref (es : MenuBarState) (i : Nat) (h : i < es.length) :
    ((∃ m, onClick es i = Except.error m) ↔ refDefinedAt es i = false) ∧
    (∀ m, onClick es i = Except.error m →
      m = "The menu bar floating menu has no associated ref") ∧
    (refDefinedAt es i = false → step es (MenuEvent.click i) = es) := by
  have hi : es[i]? = some es[i] := List.getElem?_eq_getElem h
  have hdef : refDefinedAt es i = (es[i]).ref.isSome := by
    unfold refDefinedAt
    rw [hi]
  by_cases hr : (es[i]).ref.isSome = true
  · refine ⟨⟨?_, ?_⟩, ?_, ?_⟩
    · rintro ⟨m, hm⟩
      unfold onClick at hm
      rw [hi] at hm
      simp [hr] at hm
    · intro hfalse
      rw [hdef, hr] at hfalse
      exact absurd hfalse (by simp)
    · intro m hm
      unfold onClick at hm
      rw [hi] at hm
      simp [hr] at hm
    · intro hfalse
      rw [hdef, hr] at hfalse
      exact absurd hfalse (by simp)
  · simp only [Bool.not_eq_true] at hr
    have herr : onClick es i
        = Except.error "The menu bar floating menu has no associated ref" := by
      unfold onClick
      rw [hi]
      simp [hr]
    refine ⟨⟨?_, ?_⟩, ?_, ?_⟩
    · intro _
      rw [hdef, hr]
    · intro _
      exact ⟨_, herr⟩
    · intro m hm
      rw [herr] at hm
      exact (Except.error.inj hm).symm
    · intro _
      simp only [step, herr]

/-- Claim C3 witness: a concrete instance of the amended theorem on a
one-entry state whose entry has no ref. -/
theorem onClick_error_iff_no_ref_witness :
    (0 < ([exEntryNoRef] : MenuBarState).length) ∧
    (((∃ m, onClick [exEntryNoRef] 0 = Except.error m)
        ↔ refDefinedAt [exEntryNoRef] 0 = false) ∧
      (∀ m, onClick [exEntryNoRef] 0 = Except.error m →
        m = "The menu bar floating menu has no associated ref") ∧
      (refDefinedAt [exEntryNoRef] 0 = false →
        step [exEntryNoRef] (MenuEvent.click 0) = [exEntryNoRef])) :=
  ⟨by decide, onClick_error_iff_no_ref [exEntryNoRef] 0 (by decide)⟩

/-- Claim C4 (counterexample): from the mounted initial state, the handler
sequence click 0, click 1 is admissible and leaves two top-level entries
with open flag true at the same time, so open state is not exclusive
within the sibling level. -/
theorem C4_counterexample :
    countOpen (run initState [MenuEvent.click 0, MenuEvent.click 1]) = 2 ∧
    openAt (run initState [MenuEvent.click 0, MenuEvent.click 1]) 0 = true ∧
    openAt (run initState [MenuEvent.click 0, MenuEvent.click 1]) 1 = true :=
  ⟨by decide, by decide, by decide⟩

/-- Claim C4 (amended, proved): one handler invocation changes at most the
entry it targets; every entry other than the target of the event is
unchanged. Exclusivity of the open state does not follow: clicking a
second entry opens it without closing the first. -/
theorem step_changes_at_most_target (es : MenuBarState) (ev : MenuEvent) (j : Nat)
    (h : j ≠ ev.targetIdx) :
    (step es ev)[j]? = es[j]? := by
  cases ev with
  | click i =>
    simp only [MenuEvent.targetIdx] at h
    simp only [step, onClick]
    cases hi : es[i]? with
    | none => rfl
    | some e =>
      by_cases hr : e.ref.isSome = true
      · simp only [hr, if_true]
        exact List.getElem?_set_ne (fun hij => h hij.symm)
      · simp only [Bool.not_eq_true] at hr
        simp [hr]
  | blurEvent i outside =>
    simp only [MenuEvent.targetIdx] at h
    simp only [step, blur]
    cases hi : es[i]? with
    | none => rfl
    | some e =>
      by_cases hc : (outside && e.ref.isSome) = true
      · simp only [hc, if_true]
        exact List.getElem?_set_ne (fun hij => h hij.symm)
      · simp [hc]

/-- Claim C4 witness: a concrete instance of the amended theorem. -/
theorem step_changes_at_most_target_witness :
    (step [exEntryA, exEntryB] (MenuEvent.click 0))[1]? = [exEntryA, exEntryB][1]? :=
  step_changes_at_most_target [exEntryA, exEntryB] (MenuEvent.click 0) 1 (by decide)

/-- Claim C5 (confirmed): the editor methods appearing as actions in the
static makeEntries table are, by external name, exactly those of the
external-interface list of the specification: every table call is in the
list and every listed name occurs as some table call. -/
theorem table_editor_methods_match_interface_list :
    tableMethodNames.all (fun n => claimedMethodNames.contains n) = true ∧
    claimedMethodNames.all (fun n => tableMethodNames.contains n) = true :=
  ⟨by decide, by decide⟩

/-- Claim C9 (confirmed): the Order submenu of the Layer entry consists of
Raise To Front, Raise, Lower and Lower to Back, whose actions call
reorder_selected_layers with the editor value i32_max, the literal 1, the
literal -1 and the editor value i32_min respectively. -/
theorem order_submenu_reorder_deltas :
    orderSubmenu.map MenuListEntry.label = ["Raise To Front", "Raise", "Lower", "Lower to Back"] ∧
    orderSubmenu.map MenuListEntry.action =
      [ some (MenuAction.editorCall (EditorMethod.reorderSelectedLayers I32Arg.i32Max)),
        some (MenuAction.editorCall (EditorMethod.reorderSelectedLayers (I32Arg.lit 1))),
        some (MenuAction.editorCall (EditorMethod.reorderSelectedLayers (I32Arg.lit (-1)))),
        some (MenuAction.editorCall (EditorMethod.reorderSelectedLayers I32Arg.i32Min)) ] :=
  ⟨rfl, rfl⟩

/-- Claim C6 (confirmed): the tab rendered at position i of the tab strip
carries index i, its click handler invokes clickAction with exactly the
argument i, and its middle-click handler and close-button handler invoke
closeAction with exactly the argument i, the close button existing only
when tabCloseButtons is set; no handler receives the index of a different
tab. -/
theorem tab_handlers_dispatch_by_index {A : Type} (p : PanelProps A) (i : Nat)
    (h : i < p.tabLabels.length) :
    ((renderTabs p)[i]?).map TabView.index = some i ∧
    (∀ f, p.clickAction = some f → onTabClick p i = some (f i)) ∧
    (∀ f, p.closeAction = some f →
      onTabMiddleClick p i = some (f i) ∧
      (p.tabCloseButtons = true → onTabCloseButton p i = some (f i))) := by
  refine ⟨?_, ?_, ?_⟩
  · unfold renderTabs
    rw [List.getElem?_map, List.getElem?_range h]
    rfl
  · intro f hf
    simp [onTabClick, hf]
  · intro f hf
    constructor
    · simp [onTabMiddleClick, hf]
    · intro hb
      simp [onTabCloseButton, hb, hf]

/-- Concrete panel props used by witnesses: two tabs, close buttons on,
both callbacks present. -/
def exPanelProps : PanelProps Nat :=
  ⟨false, true, ["Document", "Properties"], 0, PanelType.document,
    some (fun i => i), some (fun i => i + 10)⟩

/-- Concrete panel props with both callbacks absent. -/
def exPanelPropsNoActions : PanelProps Nat :=
  ⟨false, true, ["Document", "Properties"], 0, PanelType.document, none, none⟩

/-- Concrete panel props whose active index lies outside the tab list. -/
def exPanelPropsOut : PanelProps Nat :=
  ⟨false, false, ["Document"], 1, PanelType.document, none, none⟩

/-- Claim C6 witness: a concrete instance of the dispatch theorem on the
first tab. -/
theorem tab_handlers_dispatch_by_index_witness :
    ((renderTabs exPanelProps)[0]?).map TabView.index = some 0 ∧
    (∀ f, exPanelProps.clickAction = some f → onTabClick exPanelProps 0 = some (f 0)) ∧
    (∀ f, exPanelProps.closeAction = some f →
      onTabMiddleClick exPanelProps 0 = some (f 0) ∧
      (exPanelProps.tabCloseButtons = true → onTabCloseButton exPanelProps 0 = some (f 0))) :=
  tab_handlers_dispatch_by_index exPanelProps 0 (by decide)

theorem countP_range_beq (v : Int) :
    ∀ n : Nat, (List.range n).countP (fun i : Nat => ((i : Int) == v))
      = if 0 ≤ v ∧ v < (n : Int) then 1 else 0 := by
  intro n
  induction n with
  | zero =>
    simp only [List.range_zero, List.countP_nil, Nat.cast_zero]
    split_ifs with h
    · omega
    · rfl
  | succ n ih =>
    rw [List.range_succ, List.countP_append, ih]
    simp only [List.countP_cons, List.countP_nil, beq_iff_eq, Nat.cast_succ]
    split_ifs <;> simp_all <;> omega

theorem activeTabCount_eq {A : Type} (p : PanelProps A) :
    activeTabCount p
      = if 0 ≤ p.tabActiveIndex ∧ p.tabActiveIndex < (p.tabLabels.length : Int)
        then 1 else 0 := by
  unfold activeTabCount renderTabs
  rw [List.countP_map]
  have hcomp : ((fun t : TabView => t.active) ∘ fun i : Nat =>
      ({ label := p.tabLabels.getD i "", index := i,
         active := ((i : Int) == p.tabActiveIndex),
         hasCloseButton := p.tabCloseButtons } : TabView))
      = fun i : Nat => ((i : Int) == p.tabActiveIndex) := rfl
  rw [hcomp]
  exact countP_range_beq p.tabActiveIndex p.tabLabels.length

/-- Claim C7 (counterexample): the Panel validates nothing about its
tabActiveIndex prop: rendered with one tab label and active index 1, the
bound claimed as an invariant is violated and no tab at all receives the
active marking, instead of exactly one. -/
theorem C7_counterexample :
    ¬(0 ≤ exPanelPropsOut.tabActiveIndex ∧
      exPanelPropsOut.tabActiveIndex < (exPanelPropsOut.tabLabels.length : Int)) ∧
    activeTabCount exPanelPropsOut = 0 :=
  ⟨by decide, by decide⟩

/-- Claim C7 (amended, proved): the Panel marks active exactly the tabs
whose index equals the tabActiveIndex prop: at most one tab is ever
active, the count is one exactly when the index is within bounds of the
tab list, and each rendered tab is active exactly when its index equals
the prop. The component itself never writes the index, which is an
immutable prop supplied by the parent, but nothing in the component
enforces the bound. -/
theorem active_marking_iff_index_in_bounds {A : Type} (p : PanelProps A) :
    activeTabCount p ≤ 1 ∧
    (activeTabCount p = 1 ↔
      (0 ≤ p.tabActiveIndex ∧ p.tabActiveIndex < (p.tabLabels.length : Int))) ∧
    (∀ i, i < p.tabLabels.length →
      ((renderTabs p)[i]?).map TabView.active = some ((i : Int) == p.tabActiveIndex)) := by
  have he := activeTabCount_eq p
  refine ⟨?_, ?_, ?_⟩
  · rw [he]
    split_ifs <;> omega
  · rw [he]
    split_ifs with hin
    · simp [hin]
    · simp [hin]
  · intro i hi
    unfold renderTabs
    rw [List.getElem?_map, List.getElem?_range hi]
    rfl

/-- Claim C7 witness: a concrete instance of the amended theorem on the
out-of-bounds props. -/
theorem active_marking_iff_index_in_bounds_witness :
    ((renderTabs exPanelPropsOut)[0]?).map TabView.active
      = some (((0 : Nat) : Int) == exPanelPropsOut.tabActiveIndex) :=
  (active_marking_iff_index_in_bounds exPanelPropsOut).2.2 0 (by decide)

/-- Claim C10 (confirmed): the clickAction and closeAction props are
optional, and every tab handler is a total no-op when its callback is
absent: the optional-chaining call invokes nothing and, being a total
function of the props in this development, throws nothing. -/
theorem absent_tab_callbacks_are_noops {A : Type} (p : PanelProps A) (i : Nat) :
    (p.clickAction = none → onTabClick p i = none) ∧
    (p.closeAction = none → onTabMiddleClick p i = none ∧ onTabCloseButton p i = none) := by
  constructor
  · intro h
    simp [onTabClick, h]
  · intro h
    exact ⟨by simp [onTabMiddleClick, h], by simp [onTabCloseButton, h]⟩

/-- Claim C10 witness: a concrete instance on props without callbacks. -/
theorem absent_tab_callbacks_are_noops_witness :
    (exPanelPropsNoActions.clickAction = none →
      onTabClick exPanelPropsNoActions 0 = none) ∧
    (exPanelPropsNoActions.closeAction = none →
      onTabMiddleClick exPanelPropsNoActions 0 = none ∧
      onTabCloseButton exPanelPropsNoActions 0 = none) :=
  absent_tab_callbacks_are_noops exPanelPropsNoActions 0
